import Mathlib

set_option maxRecDepth 100000

/-!
Verification development for the `ctodd-python-lib-email` repository
(`email_helpers/gmail_helpers.py`).  The Python source is shallowly
embedded: file-system interaction is modelled by explicit state
(`Option Credential` for the pickled token cache, `String → Option Bytes`
for attachment files), the interactive OAuth flow and the token refresh
are modelled as oracles/operations on an explicit credential record, and
every fallible operation returns `Except`.
-/

namespace Gmail

/-! ## Credential manager (`get_gmail_credentials`, lines 50-92) -/

/-- An OAuth2 credential bundle as observed by `get_gmail_credentials`:
the code only inspects `gmail_credentials.expired` (a boolean attribute)
and the truthiness of `gmail_credentials.refresh_token` (presence of a
refresh token).  `tokenId` is an abstract identity allowing the theorems
to say that a credential is returned or persisted *unchanged*. -/
structure Credential where
  expired : Bool
  refresh_token : Bool
  tokenId : Nat
deriving DecidableEq, Repr

/-- Modelled from the spec: `gmail_credentials.refresh(Request())` is the
google-auth non-interactive refresh, which obtains a fresh access token
for the same credential, after which the credential is no longer
expired.  The refresh token and identity are unchanged (the Python call
mutates the credential object in place). -/
def refreshCredential (c : Credential) : Credential :=
  { c with expired := false }

/-- The observable outcome of one call to `get_gmail_credentials`:
the returned credential, the token-cache file content afterwards, and
effect flags recording whether the interactive flow
(`generate_gmail_token`), the non-interactive refresh, a write of the
token cache file, or a write of the credentials file happened. -/
structure AcqResult where
  result : Credential
  tokenFileAfter : Option Credential
  interactiveInvoked : Bool
  refreshInvoked : Bool
  tokenFileWritten : Bool
  credentialsFileWritten : Bool
deriving DecidableEq, Repr

/-- Shallow embedding of `get_gmail_credentials` (gmail_helpers.py lines
72-92).  `tokenFile` is the deserialized content of the token cache file
(`none` when the file does not exist; `pickle.load` otherwise), and
`interactive` is the credential that the interactive flow
(`generate_gmail_token`, which only *reads* the credentials file) would
produce.  The branch structure mirrors the source: `if not
gmail_credentials: ... elif expired and refresh_token: ... elif expired
and not refresh_token: ...`, with a `pickle.dump` to the token file in
each taken branch and no write otherwise. -/
def get_gmail_credentials (tokenFile : Option Credential) (interactive : Credential) :
    AcqResult :=
  match tokenFile with
  | none =>
    { result := interactive
      tokenFileAfter := some interactive
      interactiveInvoked := true
      refreshInvoked := false
      tokenFileWritten := true
      credentialsFileWritten := false }
  | some c =>
    if c.expired && c.refresh_token then
      { result := refreshCredential c
        tokenFileAfter := some (refreshCredential c)
        interactiveInvoked := false
        refreshInvoked := true
        tokenFileWritten := true
        credentialsFileWritten := false }
    else if c.expired && !c.refresh_token then
      { result := interactive
        tokenFileAfter := some interactive
        interactiveInvoked := true
        refreshInvoked := false
        tokenFileWritten := true
        credentialsFileWritten := false }
    else
      { result := c
        tokenFileAfter := some c
        interactiveInvoked := false
        refreshInvoked := false
        tokenFileWritten := false
        credentialsFileWritten := false }

/-- The four-transition state machine exactly as the spec words it
(section 4.1): absent → interactive-auth; valid & not expired → no-op;
valid & expired & refreshable → refresh; valid & expired &
non-refreshable → interactive-auth.  Written from the spec's words, to
be compared with the embedding of the code. -/
def specCredentialMachine (tokenFile : Option Credential) (interactive : Credential) :
    AcqResult :=
  match tokenFile with
  | none =>
    { result := interactive
      tokenFileAfter := some interactive
      interactiveInvoked := true
      refreshInvoked := false
      tokenFileWritten := true
      credentialsFileWritten := false }
  | some c =>
    if !c.expired then
      { result := c
        tokenFileAfter := some c
        interactiveInvoked := false
        refreshInvoked := false
        tokenFileWritten := false
        credentialsFileWritten := false }
    else if c.refresh_token then
      { result := refreshCredential c
        tokenFileAfter := some (refreshCredential c)
        interactiveInvoked := false
        refreshInvoked := true
        tokenFileWritten := true
        credentialsFileWritten := false }
    else
      { result := interactive
        tokenFileAfter := some interactive
        interactiveInvoked := true
        refreshInvoked := false
        tokenFileWritten := true
        credentialsFileWritten := false }

/-! ## Bytes, strings, UTF-8 and base64 -/

/-- Raw file/payload bytes, each `< 256`. -/
abbrev Bytes := List Nat

/-- The readable part of the file system: maps a filename to its byte
content, `none` when the file is missing or unreadable (`open` raises). -/
abbrev FileSystem := String → Option Bytes

/-- The errors the message-composition path can raise: `ioError` models
the `OSError` from `open()` on a missing/unreadable attachment;
`typeError` models the `AttributeError` raised inside
`MIMEText(bytes_payload, ...)` (see `encode_attachment_for_email`). -/
inductive EmailError where
  | ioError (filename : String)
  | typeError (filename : String)
deriving DecidableEq, Repr

/-- Decidable equality on `Except`, to evaluate concrete outcomes. -/
instance {ε α : Type} [DecidableEq ε] [DecidableEq α] :
    DecidableEq (Except ε α) := fun x y =>
  match x, y with
  | .ok a, .ok b =>
    if h : a = b then .isTrue (by rw [h]) else .isFalse (fun hc => by cases hc; exact h rfl)
  | .error a, .error b =>
    if h : a = b then .isTrue (by rw [h]) else .isFalse (fun hc => by cases hc; exact h rfl)
  | .ok _, .error _ => .isFalse (fun hc => by cases hc)
  | .error _, .ok _ => .isFalse (fun hc => by cases hc)

/-- Python `str.endswith`, on the character lists of the strings. -/
def strEndsWith (s pat : String) : Bool :=
  List.isSuffixOf pat.toList s.toList

/-- Python `pat in hay` substring test, on character lists. -/
def listContains : List Char → List Char → Bool
  | _, [] => true
  | [], _ => false
  | c :: cs, pat => List.isPrefixOf pat (c :: cs) || listContains cs pat

/-- Substring containment of `pat` in `hay`. -/
def containsSub (hay pat : String) : Bool :=
  listContains hay.toList pat.toList

/-- Contiguous containment of `pat` in `hay` at byte level. -/
def bytesContain (hay pat : Bytes) : Bool :=
  listContains (hay.map (fun b => Char.ofNat b)) (pat.map (fun b => Char.ofNat b))

/-- Python `s.encode('us-ascii')` succeeds exactly when every code point
is below 128 (the charset probe done by `MIMEText`). -/
def isAsciiStr (s : String) : Bool :=
  s.toList.all (fun c => decide (c.toNat < 128))

/-- UTF-8 encoding of one code point. -/
def utf8Char (c : Char) : Bytes :=
  let n := c.toNat
  if n < 128 then [n]
  else if n < 2048 then [192 + n / 64, 128 + n % 64]
  else if n < 65536 then [224 + n / 4096, 128 + n / 64 % 64, 128 + n % 64]
  else [240 + n / 262144, 128 + n / 4096 % 64, 128 + n / 64 % 64, 128 + n % 64]

/-- Python `str.encode()`: UTF-8 bytes of a string. -/
def utf8Encode (s : String) : Bytes :=
  (s.toList.map utf8Char).flatten

/-- Standard base64 alphabet (`+`, `/` at 62, 63). -/
def stdB64Char (i : Nat) : Char :=
  if i < 26 then Char.ofNat (65 + i)
  else if i < 52 then Char.ofNat (97 + (i - 26))
  else if i < 62 then Char.ofNat (48 + (i - 52))
  else if i = 62 then '+'
  else '/'

/-- URL-safe base64 alphabet (`-`, `_` at 62, 63), as used by
`base64.urlsafe_b64encode`. -/
def urlsafeB64Char (i : Nat) : Char :=
  if i < 26 then Char.ofNat (65 + i)
  else if i < 52 then Char.ofNat (97 + (i - 26))
  else if i < 62 then Char.ofNat (48 + (i - 52))
  else if i = 62 then '-'
  else '_'

/-- Base64 encoding over a given alphabet: 3-byte groups become 4
characters, with `=` padding for a 1- or 2-byte final group. -/
def b64EncodeWith (charOf : Nat → Char) : Bytes → List Char
  | [] => []
  | [a] => [charOf (a / 4), charOf (a % 4 * 16), '=', '=']
  | [a, b] => [charOf (a / 4), charOf (a % 4 * 16 + b / 16), charOf (b % 16 * 4), '=']
  | a :: b :: c :: rest =>
      charOf (a / 4) :: charOf (a % 4 * 16 + b / 16) :: charOf (b % 16 * 4 + c / 64) ::
        charOf (c % 64) :: b64EncodeWith charOf rest

/-- `base64.b64encode` (standard alphabet), as characters. -/
def stdB64Encode (bs : Bytes) : List Char :=
  b64EncodeWith stdB64Char bs

/-- `base64.urlsafe_b64encode(...)`, as characters. -/
def urlsafeB64Encode (bs : Bytes) : List Char :=
  b64EncodeWith urlsafeB64Char bs

/-- `base64.urlsafe_b64encode(...).decode()`: the transport-envelope
string produced at the end of `build_msg_obj`. -/
def urlsafeB64EncodeStr (bs : Bytes) : String :=
  String.mk (urlsafeB64Encode bs)

/-- Index of a character in the base64 alphabets (`-` and `+` both map
to 62, `_` and `/` both to 63, so this decodes either alphabet). -/
def b64CharIndex (c : Char) : Nat :=
  if 65 ≤ c.toNat && c.toNat ≤ 90 then c.toNat - 65
  else if 97 ≤ c.toNat && c.toNat ≤ 122 then c.toNat - 71
  else if 48 ≤ c.toNat && c.toNat ≤ 57 then c.toNat + 4
  else if c = '-' || c = '+' then 62
  else 63

/-- Base64 decoding (`base64.urlsafe_b64decode` on well-formed input):
4-character groups back to 3 bytes, honouring `=` padding. -/
def b64Decode : List Char → Bytes
  | c0 :: c1 :: c2 :: c3 :: rest =>
      let i0 := b64CharIndex c0
      let i1 := b64CharIndex c1
      if c2 = '=' then [i0 * 4 + i1 / 16]
      else
        let i2 := b64CharIndex c2
        if c3 = '=' then [i0 * 4 + i1 / 16, i1 % 16 * 16 + i2 / 4]
        else (i0 * 4 + i1 / 16) :: (i1 % 16 * 16 + i2 / 4) ::
          (i2 % 4 * 64 + b64CharIndex c3) :: b64Decode rest
  | _ => []

/-- Structural worker for `wrapB64Lines`; the fuel is an upper bound on
the number of lines to cut (the input length suffices). -/
def wrapB64Aux : Nat → List Char → List Char
  | _, [] => []
  | 0, cs => cs ++ ['\n']
  | fuel + 1, cs =>
    if cs.length ≤ 76 then cs ++ ['\n']
    else cs.take 76 ++ '\n' :: wrapB64Aux fuel (cs.drop 76)

/-- `base64.encodebytes`-style line wrapping used by the email encoders:
the character stream is cut into 76-character lines, each terminated by
a newline (empty input stays empty). -/
def wrapB64Lines (cs : List Char) : List Char :=
  wrapB64Aux cs.length cs

/-! ## mimetypes and attachment content-type resolution -/

/-- Modelled from the Python standard library `mimetypes.guess_type`
extension table (an external stdlib dependency of
`encode_attachment_for_email`), restricted to the extensions exercised
by the theorems; unknown extensions give `(None, None)` and `.gz`
carries the `gzip` encoding, as in the stdlib. -/
def guess_type (name : String) : Option String × Option String :=
  if strEndsWith name ".txt.gz" then (some "text/plain", some "gzip")
  else if strEndsWith name ".txt" then (some "text/plain", none)
  else if strEndsWith name ".png" then (some "image/png", none)
  else if strEndsWith name ".mp3" then (some "audio/mpeg", none)
  else if strEndsWith name ".xlsx" then
    (some "application/vnd.openxmlformats-officedocument.spreadsheetml.sheet", none)
  else if strEndsWith name ".pdf" then (some "application/pdf", none)
  else (none, none)

/-- Content-type resolution of `encode_attachment_for_email`
(gmail_helpers.py lines 205-211), parametric in whatever
`mimetypes.guess_type` returned: fall back to
`application/octet-stream` when the guess is `None` or an encoding is
present, then force `application/vnd-xls` for `.xlsx` filenames. -/
def resolveContentType (name : String) (guessed : Option String)
    (encoding : Option String) : String :=
  let ct :=
    if guessed = none || encoding ≠ none then "application/octet-stream"
    else guessed.getD "application/octet-stream"
  if strEndsWith name ".xlsx" then "application/vnd-xls" else ct

/-- `content_type.split("/")`, first component (the Python code unpacks
exactly two components; registered content types contain one slash). -/
def mainTypeOf (ct : String) : String :=
  String.mk (ct.toList.takeWhile (fun c => decide (c ≠ '/')))

/-- `content_type.split("/")`, second component. -/
def subTypeOf (ct : String) : String :=
  String.mk ((ct.toList.dropWhile (fun c => decide (c ≠ '/'))).drop 1)

/-! ## MIME parts -/

/-- Payload of a MIME part as stored by the Python `email` library:
either a string (text bodies; base64-encoded attachment data) or raw
bytes (the `MIMEBase`+`set_payload` fallback branch, which never runs
them through a transfer encoding). -/
inductive PartPayload where
  | textData (s : String)
  | rawData (b : Bytes)
deriving DecidableEq, Repr

/-- One MIME part: ordered header list plus payload. -/
structure MimePart where
  headers : List (String × String)
  payload : PartPayload
deriving DecidableEq, Repr

/-- `MIMEText(email_body, "plain")` on a `str` body: the constructor
probes `body.encode('us-ascii')`; on success the part carries charset
`us-ascii` with a 7bit transfer encoding and the body verbatim,
otherwise charset `utf-8` with base64-encoded payload. -/
def mimeTextPlain (body : String) : MimePart :=
  if isAsciiStr body then
    { headers := [("Content-Type", "text/plain; charset=\"us-ascii\""),
                  ("MIME-Version", "1.0"),
                  ("Content-Transfer-Encoding", "7bit")]
      payload := .textData body }
  else
    { headers := [("Content-Type", "text/plain; charset=\"utf-8\""),
                  ("MIME-Version", "1.0"),
                  ("Content-Transfer-Encoding", "base64")]
      payload := .textData (String.mk (wrapB64Lines (stdB64Encode (utf8Encode body)))) }

/-- Shallow embedding of `encode_attachment_for_email` (gmail_helpers.py
lines 193-229).  Content type is resolved from the extension with the
`.xlsx` override, then the file is opened in binary mode (`none` from
the file system models the `OSError` of `open`) and dispatched on the
top-level type.  The `text` branch constructs `MIMEText` from the raw
bytes; `MIMEText` immediately evaluates `_text.encode('us-ascii')`, and
`bytes` has no `encode` attribute, so that branch unconditionally
raises `AttributeError` — modelled as `typeError`.  The image, audio
and `vnd-xls` branches base64-encode the payload; the final fallback
stores the raw payload with no transfer encoding, exactly as
`MIMEBase` + `set_payload` does. -/
def encode_attachment_for_email (fs : FileSystem) (attachment_filename : String) :
    Except EmailError MimePart :=
  let g := guess_type attachment_filename
  let content_type := resolveContentType attachment_filename g.1 g.2
  let main_type := mainTypeOf content_type
  let sub_type := subTypeOf content_type
  match fs attachment_filename with
  | none => .error (.ioError attachment_filename)
  | some fileBytes =>
    if main_type = "text" then
      .error (.typeError attachment_filename)
    else if main_type = "image" then
      .ok { headers := [("Content-Type", "image/" ++ sub_type),
                        ("MIME-Version", "1.0"),
                        ("Content-Transfer-Encoding", "base64")]
            payload := .textData (String.mk (wrapB64Lines (stdB64Encode fileBytes))) }
    else if main_type = "audio" then
      .ok { headers := [("Content-Type", "audio/" ++ sub_type),
                        ("MIME-Version", "1.0"),
                        ("Content-Transfer-Encoding", "base64")]
            payload := .textData (String.mk (wrapB64Lines (stdB64Encode fileBytes))) }
    else if sub_type = "vnd-xls" then
      .ok { headers := [("Content-Type", "application/" ++ sub_type),
                        ("MIME-Version", "1.0"),
                        ("Content-Transfer-Encoding", "base64")]
            payload := .textData (String.mk (wrapB64Lines (stdB64Encode fileBytes))) }
    else
      .ok { headers := [("Content-Type", main_type ++ "/" ++ sub_type),
                        ("MIME-Version", "1.0")]
            payload := .rawData fileBytes }

/-- `attachment.add_header("Content-Disposition", "attachment",
filename=attachment_filename)` (gmail_helpers.py lines 186-188):
appends the header with the quoted filename parameter. -/
def addContentDisposition (attachment_filename : String) (p : MimePart) : MimePart :=
  { p with headers := p.headers ++
      [("Content-Disposition", "attachment; filename=\"" ++ attachment_filename ++ "\"")] }

/-- The attachment loop of `build_msg_obj` (lines 184-189): encode each
file in order, add its `Content-Disposition` header, and attach it; the
first exception aborts the whole composition. -/
def encodeAttachments (fs : FileSystem) : List String → Except EmailError (List MimePart)
  | [] => .ok []
  | f :: rest => do
    let attachment ← encode_attachment_for_email fs f
    let restParts ← encodeAttachments fs rest
    pure (addContentDisposition f attachment :: restParts)

/-! ## Message assembly and serialization -/

/-- The top-level header list assembled by `build_msg_obj` (lines
173-178).  `MIMEMultipart()` contributes `Content-Type` (whose boundary
parameter is filled in at serialization time — here passed explicitly,
since Python picks it randomly) and `MIME-Version`; the code then sets
`subject`, `from`, `to`, `cc`, `bcc` — with those lower-case names,
which the compat32 serializer emits verbatim.  To/Cc/Bcc lists are
joined with `", "`; absent Cc/Bcc become the empty string. -/
def buildHeaders (boundary email_from email_subject : String)
    (email_to email_cc email_bcc : List String) : List (String × String) :=
  [("Content-Type", "multipart/mixed; boundary=\"" ++ boundary ++ "\""),
   ("MIME-Version", "1.0"),
   ("subject", email_subject),
   ("from", email_from),
   ("to", String.intercalate ", " email_to),
   ("cc", if email_cc.isEmpty then "" else String.intercalate ", " email_cc),
   ("bcc", if email_bcc.isEmpty then "" else String.intercalate ", " email_bcc)]

/-- The assembled `MIMEMultipart` message: top-level headers, then the
body part followed by the attachment parts. -/
structure EmailMessage where
  headers : List (String × String)
  parts : List MimePart
deriving DecidableEq, Repr

/-- The message-object assembly of `build_msg_obj` before serialization
(lines 170-189): headers, body part, attachments in order. -/
def assembleMessage (fs : FileSystem)
    (boundary email_from email_subject email_body : String)
    (email_to email_cc email_bcc email_attachments : List String) :
    Except EmailError EmailMessage := do
  let attParts ← encodeAttachments fs email_attachments
  pure { headers := buildHeaders boundary email_from email_subject email_to email_cc email_bcc
         parts := mimeTextPlain email_body :: attParts }

/-- compat32 header emission: each header as `name: value` followed by a
newline, names emitted exactly as stored (values here are short enough
not to fold). -/
def serializeHeaders (hs : List (String × String)) : String :=
  String.join (hs.map (fun h => h.1 ++ ": " ++ h.2 ++ "\n"))

/-- Payload as written by the generator (raw byte payloads are written
as their character values; such parts are never serialized in the
theorems below). -/
def serializePayload : PartPayload → String
  | .textData s => s
  | .rawData b => String.mk (b.map (fun x => Char.ofNat x))

/-- One part in generated form: headers, blank line, payload. -/
def serializePart (p : MimePart) : String :=
  serializeHeaders p.headers ++ "\n" ++ serializePayload p.payload

/-- `email_msg.as_string()` for the assembled multipart message
(compat32 generator, `\n` line separator): top-level headers, blank
line, then the parts delimited by `--boundary` lines and closed with
`--boundary--`. -/
def serializeMessage (boundary : String) (m : EmailMessage) : String :=
  serializeHeaders m.headers ++ "\n" ++ "--" ++ boundary ++ "\n" ++
    String.intercalate ("\n--" ++ boundary ++ "\n") (m.parts.map serializePart) ++
    "\n--" ++ boundary ++ "--\n"

/-- Shallow embedding of `build_msg_obj` (gmail_helpers.py lines
143-191): assemble the message, serialize it, and return the
single-entry mapping `{'raw': urlsafe_b64encode(as_string().encode()).decode()}`. -/
def build_msg_obj (fs : FileSystem)
    (boundary email_from email_subject email_body : String)
    (email_to email_cc email_bcc email_attachments : List String) :
    Except EmailError (List (String × String)) :=
  (assembleMessage fs boundary email_from email_subject email_body
      email_to email_cc email_bcc email_attachments).map
    (fun m => [("raw", urlsafeB64EncodeStr (utf8Encode (serializeMessage boundary m)))])

/-! ## Call-session model for the mutable default arguments -/

/-- The default-argument objects of `build_msg_obj` (`email_cc=[]`,
`email_bcc=[]`, `email_attachments=[]`): in Python these lists are
created once at function definition time and shared by every call that
omits the corresponding argument. -/
structure DefaultArgs where
  email_cc : List String
  email_bcc : List String
  email_attachments : List String
deriving DecidableEq, Repr

/-- One call to `build_msg_obj`: the required arguments plus the
optional ones (`none` means the caller omitted the argument, so the
shared default object is used). -/
structure BuildCall where
  email_from : String
  email_subject : String
  email_body : String
  email_to : List String
  ccArg : Option (List String)
  bccArg : Option (List String)
  attachmentsArg : Option (List String)
deriving DecidableEq, Repr

/-- One `build_msg_obj` call under the shared-default-argument
semantics: omitted arguments resolve to the current default objects.
The function body only joins and iterates over the lists — it contains
no mutating operation — so the default objects after the call are the
ones before it. -/
def build_msg_obj_call (fs : FileSystem) (boundary : String)
    (defaults : DefaultArgs) (call : BuildCall) :
    Except EmailError (List (String × String)) × DefaultArgs :=
  (build_msg_obj fs boundary call.email_from call.email_subject call.email_body
     call.email_to (call.ccArg.getD defaults.email_cc)
     (call.bccArg.getD defaults.email_bcc)
     (call.attachmentsArg.getD defaults.email_attachments),
   defaults)

/-- The header list a call observes under the shared defaults. -/
def headersForCall (boundary : String) (defaults : DefaultArgs) (call : BuildCall) :
    List (String × String) :=
  buildHeaders boundary call.email_from call.email_subject call.email_to
    (call.ccArg.getD defaults.email_cc) (call.bccArg.getD defaults.email_bcc)

/-! ## Sender (`send_email`, lines 118-135) -/

/-- A log record of `send_email`: the informational entry or the
`logging.exception` entry that carries the caught error. -/
inductive LogEntry (ε : Type) where
  | info (msg : String)
  | exceptionEntry (msg : String) (err : ε)

/-- Observable outcome of one `send_email` call: how many times the
underlying API send was invoked, the log, and the result. -/
structure SendResult (ε : Type) where
  apiCalls : Nat
  log : List (LogEntry ε)
  outcome : Except ε Unit

/-- Shallow embedding of `send_email` (gmail_helpers.py lines 118-135):
one `...send(...).execute()` call inside `try`; on an exception the
failure is logged with the error detail and the very same error object
is re-raised (`raise err`); no retry. `apiResult` is the outcome of the
single underlying API call. -/
def send_email {ε : Type} (apiResult : Except ε Unit) : SendResult ε :=
  match apiResult with
  | .ok _ =>
    { apiCalls := 1
      log := [.info "Sending Email through Gmail"]
      outcome := .ok () }
  | .error e =>
    { apiCalls := 1
      log := [.info "Sending Email through Gmail",
              .exceptionEntry "Error: unable to send email through gmail" e]
      outcome := .error e }

/-! ## Concrete scenarios used by the theorems -/

/-- The C2 scenario: To=`["a@x.com"]`, Cc=`[]`, Bcc=`[]`, no
attachments, serialized with a fixed boundary. -/
def c2serialized : String :=
  match assembleMessage (fun _ => none) "BOUNDARY" "s@x.com" "Hi" "Body"
      ["a@x.com"] [] [] [] with
  | .ok m => serializeMessage "BOUNDARY" m
  | .error _ => ""

/-- The C3 end-to-end scenario, assembled message. -/
def c3assembled : Except EmailError EmailMessage :=
  assembleMessage (fun _ => none) "BOUNDARY" "a@x.com" "Test" "Hello"
    ["b@x.com"] [] [] []

/-- The C3 scenario, serialized wire form. -/
def c3serialized : String :=
  match c3assembled with
  | .ok m => serializeMessage "BOUNDARY" m
  | .error _ => ""

/-- The C3 scenario, full composer output. -/
def c3build : Except EmailError (List (String × String)) :=
  build_msg_obj (fun _ => none) "BOUNDARY" "a@x.com" "Test" "Hello"
    ["b@x.com"] [] [] []

/-- The `raw` value of the C3 scenario. -/
def c3raw : String :=
  match c3build with
  | .ok (("raw", r) :: _) => r
  | _ => ""

/-- A file system holding one readable plain-text file `notes.txt`
(bytes of `"hi"`), for the text-attachment scenario. -/
def c6fs : FileSystem :=
  fun f => if f = "notes.txt" then some [104, 105] else none

end Gmail

namespace Gmail

/-! ## Helper lemmas -/

/-- Valid Unicode code points are below `0x110000`. -/
theorem char_toNat_lt_codes (c : Char) : c.toNat < 1114112 := by
  rcases c.valid with h | h
  · have hlt : c.toNat < 55296 := h
    omega
  · exact h.2

/-- Every byte produced by `utf8Char` is below 256. -/
theorem utf8Char_lt (c : Char) : ∀ x ∈ utf8Char c, x < 256 := by
  have hc := char_toNat_lt_codes c
  intro x hx
  by_cases h1 : c.toNat < 128
  · simp only [utf8Char, if_pos h1] at hx
    simp only [List.mem_singleton] at hx
    omega
  · by_cases h2 : c.toNat < 2048
    · simp only [utf8Char, if_neg h1, if_pos h2, List.mem_cons, List.mem_singleton] at hx
      rcases hx with rfl | rfl | hx
      · omega
      · omega
      · cases hx
    · by_cases h3 : c.toNat < 65536
      · simp only [utf8Char, if_neg h1, if_neg h2, if_pos h3, List.mem_cons,
          List.mem_singleton] at hx
        rcases hx with rfl | rfl | rfl | hx
        · omega
        · omega
        · omega
        · cases hx
      · simp only [utf8Char, if_neg h1, if_neg h2, if_neg h3, List.mem_cons,
          List.mem_singleton] at hx
        rcases hx with rfl | rfl | rfl | rfl | hx
        · omega
        · omega
        · omega
        · omega
        · cases hx

/-- Every byte of a UTF-8 encoded string is below 256. -/
theorem utf8Encode_lt (s : String) : ∀ x ∈ utf8Encode s, x < 256 := by
  intro x hx
  simp only [utf8Encode, List.mem_flatten, List.mem_map] at hx
  rcases hx with ⟨l, ⟨c, _, rfl⟩, hxl⟩
  exact utf8Char_lt c x hxl

/-- `b64CharIndex` inverts `urlsafeB64Char` on the alphabet range. -/
theorem b64CharIndex_urlsafe (i : Nat) (h : i < 64) :
    b64CharIndex (urlsafeB64Char i) = i := by
  have hall : ∀ j : Fin 64, b64CharIndex (urlsafeB64Char j.val) = j.val := by decide
  exact hall ⟨i, h⟩

/-- Alphabet characters are never the padding character. -/
theorem urlsafeB64Char_ne_pad (i : Nat) (h : i < 64) : urlsafeB64Char i ≠ '=' := by
  have hall : ∀ j : Fin 64, urlsafeB64Char j.val ≠ '=' := by decide
  exact hall ⟨i, h⟩

/-- Base64 decoding inverts URL-safe base64 encoding on byte lists. -/
theorem b64_decode_encode :
    ∀ (bs : Bytes), (∀ x ∈ bs, x < 256) → b64Decode (urlsafeB64Encode bs) = bs
  | [], _ => rfl
  | [a], h => by
      have ha : a < 256 := h a (by simp)
      have h0 : a / 4 < 64 := by omega
      have h1 : a % 4 * 16 < 64 := by omega
      simp only [urlsafeB64Encode, b64EncodeWith, b64Decode, if_pos rfl, if_true]
      rw [b64CharIndex_urlsafe _ h0, b64CharIndex_urlsafe _ h1]
      have : a / 4 * 4 + a % 4 * 16 / 16 = a := by omega
      rw [this]
  | [a, b], h => by
      have ha : a < 256 := h a (by simp)
      have hb : b < 256 := h b (by simp)
      have h0 : a / 4 < 64 := by omega
      have h1 : a % 4 * 16 + b / 16 < 64 := by omega
      have h2 : b % 16 * 4 < 64 := by omega
      simp only [urlsafeB64Encode, b64EncodeWith, b64Decode,
        if_neg (urlsafeB64Char_ne_pad _ h2), if_pos rfl, if_true]
      rw [b64CharIndex_urlsafe _ h0, b64CharIndex_urlsafe _ h1, b64CharIndex_urlsafe _ h2]
      have e1 : a / 4 * 4 + (a % 4 * 16 + b / 16) / 16 = a := by omega
      have e2 : (a % 4 * 16 + b / 16) % 16 * 16 + b % 16 * 4 / 4 = b := by omega
      rw [e1, e2]
  | a :: b :: c :: rest, h => by
      have ha : a < 256 := h a (by simp)
      have hb : b < 256 := h b (by simp)
      have hc : c < 256 := h c (by simp)
      have h0 : a / 4 < 64 := by omega
      have h1 : a % 4 * 16 + b / 16 < 64 := by omega
      have h2 : b % 16 * 4 + c / 64 < 64 := by omega
      have h3 : c % 64 < 64 := by omega
      have hrest : ∀ x ∈ rest, x < 256 := fun x hx => h x (by simp [hx])
      simp only [urlsafeB64Encode, b64EncodeWith, b64Decode,
        if_neg (urlsafeB64Char_ne_pad _ h2), if_neg (urlsafeB64Char_ne_pad _ h3)]
      rw [b64CharIndex_urlsafe _ h0, b64CharIndex_urlsafe _ h1,
        b64CharIndex_urlsafe _ h2, b64CharIndex_urlsafe _ h3]
      have e1 : a / 4 * 4 + (a % 4 * 16 + b / 16) / 16 = a := by omega
      have e2 : (a % 4 * 16 + b / 16) % 16 * 16 + (b % 16 * 4 + c / 64) / 4 = b := by omega
      have e3 : (b % 16 * 4 + c / 64) % 4 * 64 + c % 64 = c := by omega
      have hr := b64_decode_encode rest hrest
      simp only [urlsafeB64Encode] at hr
      rw [e1, e2, e3, hr]

/-- The Cc/Bcc conditional of `build_msg_obj` agrees with plain
`", ".join` on every list (both give `""` on the empty list). -/
theorem emptyJoin_eq (l : List String) :
    (if l.isEmpty then "" else String.intercalate ", " l) = String.intercalate ", " l := by
  cases l with
  | nil => rfl
  | cons a t => rfl

/-- A missing file makes `encode_attachment_for_email` raise the I/O
error of `open`. -/
theorem encode_attachment_missing (fs : FileSystem) (f : String) (h : fs f = none) :
    encode_attachment_for_email fs f = .error (.ioError f) := by
  simp [encode_attachment_for_email, h]

/-- A missing file anywhere in the attachment list aborts the
attachment loop with an error. -/
theorem encodeAttachments_error_of_missing (fs : FileSystem) (atts : List String)
    (a : String) (ha : a ∈ atts) (hm : fs a = none) :
    ∃ e, encodeAttachments fs atts = .error e := by
  induction atts with
  | nil => cases ha
  | cons f rest ih =>
    rcases List.mem_cons.mp ha with rfl | hmem
    · exact ⟨.ioError a,
        by simp only [encodeAttachments, encode_attachment_missing fs a hm]; rfl⟩
    · rcases ih hmem with ⟨e, he⟩
      cases hf : encode_attachment_for_email fs f with
      | error e' => exact ⟨e', by simp only [encodeAttachments, hf]; rfl⟩
      | ok v => exact ⟨e, by simp only [encodeAttachments, hf, he]; rfl⟩

/-! ## Theorems about the credential manager (claims C1, C4, C10) -/

/-- Claim C1: credential acquisition follows exactly the four-transition
state machine of the spec (absent → interactive+persist; not expired →
no-op; expired & refreshable → refresh+persist; expired &
non-refreshable → interactive+persist), and no other transitions occur:
the embedding of the code equals the machine written from the spec on
every input state. -/
theorem c1_credential_state_machine (tokenFile : Option Credential)
    (interactive : Credential) :
    get_gmail_credentials tokenFile interactive =
      specCredentialMachine tokenFile interactive := by
  cases tokenFile with
  | none => rfl
  | some c =>
    cases he : c.expired <;> cases hr : c.refresh_token <;>
      simp [get_gmail_credentials, specCredentialMachine, he, hr]

/-- Claim C4: for every cached credential that is expired and carries a
refresh token, one acquisition call refreshes it non-interactively,
persists the refreshed (no longer expired) credential to the token
cache, and never invokes the interactive flow. -/
theorem c4_expired_refreshable_refreshes (c : Credential) (interactive : Credential)
    (hexp : c.expired = true) (href : c.refresh_token = true) :
    (get_gmail_credentials (some c) interactive).refreshInvoked = true ∧
    (get_gmail_credentials (some c) interactive).interactiveInvoked = false ∧
    (get_gmail_credentials (some c) interactive).tokenFileWritten = true ∧
    (get_gmail_credentials (some c) interactive).tokenFileAfter =
      some (refreshCredential c) ∧
    (get_gmail_credentials (some c) interactive).result.expired = false := by
  simp [get_gmail_credentials, hexp, href, refreshCredential]

/-- Witness for C4 at a concrete expired, refreshable credential. -/
theorem c4_expired_refreshable_refreshes_witness :
    (get_gmail_credentials (some ⟨true, true, 7⟩) ⟨false, false, 99⟩).refreshInvoked = true ∧
    (get_gmail_credentials (some ⟨true, true, 7⟩) ⟨false, false, 99⟩).interactiveInvoked = false ∧
    (get_gmail_credentials (some ⟨true, true, 7⟩) ⟨false, false, 99⟩).tokenFileWritten = true ∧
    (get_gmail_credentials (some ⟨true, true, 7⟩) ⟨false, false, 99⟩).tokenFileAfter =
      some (refreshCredential ⟨true, true, 7⟩) ∧
    (get_gmail_credentials (some ⟨true, true, 7⟩) ⟨false, false, 99⟩).result.expired = false :=
  c4_expired_refreshable_refreshes ⟨true, true, 7⟩ ⟨false, false, 99⟩ rfl rfl

/-- Claim C10: when the token cache deserializes to a non-expired
credential, acquisition performs no file writes at all (neither the
token cache nor the credentials file), invokes neither the interactive
flow nor the refresh, and returns the cached credential unchanged with
the cache content untouched. -/
theorem c10_fresh_credential_no_writes (c : Credential) (interactive : Credential)
    (hexp : c.expired = false) :
    (get_gmail_credentials (some c) interactive).tokenFileWritten = false ∧
    (get_gmail_credentials (some c) interactive).credentialsFileWritten = false ∧
    (get_gmail_credentials (some c) interactive).interactiveInvoked = false ∧
    (get_gmail_credentials (some c) interactive).refreshInvoked = false ∧
    (get_gmail_credentials (some c) interactive).result = c ∧
    (get_gmail_credentials (some c) interactive).tokenFileAfter = some c := by
  simp [get_gmail_credentials, hexp]

/-- Witness for C10 at a concrete non-expired cached credential. -/
theorem c10_fresh_credential_no_writes_witness :
    (get_gmail_credentials (some ⟨false, true, 3⟩) ⟨false, false, 42⟩).tokenFileWritten = false ∧
    (get_gmail_credentials (some ⟨false, true, 3⟩) ⟨false, false, 42⟩).credentialsFileWritten = false ∧
    (get_gmail_credentials (some ⟨false, true, 3⟩) ⟨false, false, 42⟩).interactiveInvoked = false ∧
    (get_gmail_credentials (some ⟨false, true, 3⟩) ⟨false, false, 42⟩).refreshInvoked = false ∧
    (get_gmail_credentials (some ⟨false, true, 3⟩) ⟨false, false, 42⟩).result = ⟨false, true, 3⟩ ∧
    (get_gmail_credentials (some ⟨false, true, 3⟩) ⟨false, false, 42⟩).tokenFileAfter =
      some ⟨false, true, 3⟩ :=
  c10_fresh_credential_no_writes ⟨false, true, 3⟩ ⟨false, false, 42⟩ rfl

/-! ## Theorems about message composition (claims C2, C3, C8) -/

/-- Claim C2 counterexample: in the To=`["a@x.com"]`, Cc=`[]`, Bcc=`[]`
scenario the serialized message does not contain the header line
`To: a@x.com` — the code stores the header under the lower-case name
`to`, which the compat32 serializer emits verbatim.  (The second
conjunct shows the serialization is the real, non-empty one.) -/
theorem c2_to_header_capitalized_cex :
    containsSub c2serialized "To: a@x.com" = false ∧
    containsSub c2serialized "from: s@x.com" = true := by
  exact ⟨by decide, by decide⟩

/-- Claim C2 as amended: header names are the lower-case ones the code
sets.  For every composer call, the header list is exactly the seven
headers with `to`, `cc` and `bcc` values joined with `", "` (the empty
list yielding the empty string, the header still present); for the
claim's scenario the headers contain `to: a@x.com` and empty-valued
`cc` and `bcc`; and the serialized form contains the corresponding
lower-case header lines. -/
theorem c2_headers_amended :
    (∀ (boundary sender subject : String) (tos cc bcc : List String),
      buildHeaders boundary sender subject tos cc bcc =
        [("Content-Type", "multipart/mixed; boundary=\"" ++ boundary ++ "\""),
         ("MIME-Version", "1.0"),
         ("subject", subject),
         ("from", sender),
         ("to", String.intercalate ", " tos),
         ("cc", String.intercalate ", " cc),
         ("bcc", String.intercalate ", " bcc)]) ∧
    (∀ boundary sender subject : String,
      ("to", "a@x.com") ∈ buildHeaders boundary sender subject ["a@x.com"] [] [] ∧
      ("cc", "") ∈ buildHeaders boundary sender subject ["a@x.com"] [] [] ∧
      ("bcc", "") ∈ buildHeaders boundary sender subject ["a@x.com"] [] []) ∧
    containsSub c2serialized "\nto: a@x.com\n" = true ∧
    containsSub c2serialized "\ncc: \n" = true ∧
    containsSub c2serialized "\nbcc: \n" = true := by
  refine ⟨?_, ?_, by decide, by decide, by decide⟩
  · intro boundary sender subject tos cc bcc
    simp only [buildHeaders, emptyJoin_eq]
  · intro boundary sender subject
    refine ⟨?_, ?_, ?_⟩
    · exact List.mem_cons_of_mem _ (List.mem_cons_of_mem _ (List.mem_cons_of_mem _
        (List.mem_cons_of_mem _ (List.mem_cons_self _ _))))
    · exact List.mem_cons_of_mem _ (List.mem_cons_of_mem _ (List.mem_cons_of_mem _
        (List.mem_cons_of_mem _ (List.mem_cons_of_mem _ (List.mem_cons_self _ _)))))
    · exact List.mem_cons_of_mem _ (List.mem_cons_of_mem _ (List.mem_cons_of_mem _
        (List.mem_cons_of_mem _ (List.mem_cons_of_mem _ (List.mem_cons_of_mem _
          (List.mem_cons_self _ _))))))

/-- Claim C3 counterexample: in the end-to-end scenario
(sender=`a@x.com`, to=`["b@x.com"]`, subject=`Test`, body=`Hello`), the
base64-decoded `raw` value does not contain `Subject: Test` — the
subject header is serialized as `subject: Test`.  (The second conjunct
shows the decoded value is the real message: it does contain `Hello`.) -/
theorem c3_decoded_subject_capitalized_cex :
    bytesContain (b64Decode c3raw.toList) (utf8Encode "Subject: Test") = false ∧
    bytesContain (b64Decode c3raw.toList) (utf8Encode "Hello") = true := by
  exact ⟨by decide, by decide⟩

/-- Claim C3 as amended: for every call without attachments the composer
returns a mapping with exactly the single key `raw`; in the end-to-end
scenario the `raw` value is the URL-safe base64 encoding of the
serialized container (decoding it recovers the serialized string), and
the serialized container contains the header line `subject: Test`
(lower-case, as the code stores it) and the body `Hello`. -/
theorem c3_raw_envelope_amended :
    (∀ (fs : FileSystem) (boundary sender subject body : String)
        (tos cc bcc : List String), ∃ r,
      build_msg_obj fs boundary sender subject body tos cc bcc [] = .ok [("raw", r)]) ∧
    c3build = .ok [("raw", urlsafeB64EncodeStr (utf8Encode c3serialized))] ∧
    b64Decode (urlsafeB64EncodeStr (utf8Encode c3serialized)).toList =
      utf8Encode c3serialized ∧
    bytesContain (utf8Encode c3serialized) (utf8Encode "subject: Test") = true ∧
    bytesContain (utf8Encode c3serialized) (utf8Encode "Hello") = true := by
  refine ⟨?_, by decide, ?_, by decide, by decide⟩
  · intro fs boundary sender subject body tos cc bcc
    exact ⟨_, rfl⟩
  · have h := b64_decode_encode (utf8Encode c3serialized) (utf8Encode_lt c3serialized)
    simpa [urlsafeB64EncodeStr] using h

/-- Claim C8: header assembly is idempotent under the shared
mutable-default-argument call semantics: a call returns the default
objects unchanged (the body only joins and iterates the lists), so
composing twice with the same arguments yields the same result and
byte-identical serialized header blocks (same boundary). -/
theorem c8_compose_idempotent (fs : FileSystem) (boundary : String)
    (defaults : DefaultArgs) (call : BuildCall) :
    (build_msg_obj_call fs boundary
        (build_msg_obj_call fs boundary defaults call).2 call).1 =
      (build_msg_obj_call fs boundary defaults call).1 ∧
    (build_msg_obj_call fs boundary defaults call).2 = defaults ∧
    serializeHeaders
        (headersForCall boundary (build_msg_obj_call fs boundary defaults call).2 call) =
      serializeHeaders (headersForCall boundary defaults call) :=
  ⟨rfl, rfl, rfl⟩

/-! ## Theorems about attachments (claims C5, C6, C9) -/

/-- Claim C5: any filename ending in `.xlsx` resolves to the fixed
override type `application/vnd-xls` no matter what the generic guesser
returned (including `None` or a guess with an encoding, since the
override is applied after that fallback); and `photo.png` resolves to
`image/png`, whose top-level category selects the image encoder
(base64, `MIMEImage` headers). -/
theorem c5_xlsx_override (name : String) (guessed encoding : Option String)
    (hx : strEndsWith name ".xlsx" = true) :
    resolveContentType name guessed encoding = "application/vnd-xls" ∧
    resolveContentType "photo.png" (guess_type "photo.png").1 (guess_type "photo.png").2 =
      "image/png" ∧
    mainTypeOf (resolveContentType "photo.png" (guess_type "photo.png").1
      (guess_type "photo.png").2) = "image" ∧
    encode_attachment_for_email (fun f => if f = "photo.png" then some [1, 2, 3] else none)
        "photo.png" =
      .ok { headers := [("Content-Type", "image/png"),
                        ("MIME-Version", "1.0"),
                        ("Content-Transfer-Encoding", "base64")]
            payload := .textData "AQID\n" } := by
  refine ⟨?_, by decide, by decide, by decide⟩
  simp [resolveContentType, hx]

/-- Witness for C5 at `report.xlsx`, with a guess the override must beat. -/
theorem c5_xlsx_override_witness :
    resolveContentType "report.xlsx" (some "application/zip") none =
      "application/vnd-xls" ∧
    resolveContentType "photo.png" (guess_type "photo.png").1 (guess_type "photo.png").2 =
      "image/png" ∧
    mainTypeOf (resolveContentType "photo.png" (guess_type "photo.png").1
      (guess_type "photo.png").2) = "image" ∧
    encode_attachment_for_email (fun f => if f = "photo.png" then some [1, 2, 3] else none)
        "photo.png" =
      .ok { headers := [("Content-Type", "image/png"),
                        ("MIME-Version", "1.0"),
                        ("Content-Transfer-Encoding", "base64")]
            payload := .textData "AQID\n" } :=
  c5_xlsx_override "report.xlsx" (some "application/zip") none (by decide)

/-- Claim C6 (code bug): a readable text-category attachment makes the
composition crash instead of succeeding.  `notes.txt` is readable
(bytes of `"hi"`) and guesses as `text/plain`, yet the text branch
passes the binary-mode `read()` result to `MIMEText`, which evaluates
`_text.encode('us-ascii')` on `bytes` and raises `AttributeError`; so
`encode_attachment_for_email` and the whole composition error out
instead of attaching the file. -/
theorem c6_text_attachment_crashes :
    guess_type "notes.txt" = (some "text/plain", none) ∧
    c6fs "notes.txt" = some [104, 105] ∧
    encode_attachment_for_email c6fs "notes.txt" = .error (.typeError "notes.txt") ∧
    build_msg_obj c6fs "BOUNDARY" "a@x.com" "S" "Body" ["b@x.com"] [] [] ["notes.txt"] =
      .error (.typeError "notes.txt") :=
  ⟨rfl, rfl, by decide, by decide⟩

/-- Claim C9: a missing/unreadable attachment path aborts the whole
composition: the failing attachment's encoding step raises the I/O
error of `open`, and the composer returns an error — no payload is
produced and no partial message omitting the attachment is built. -/
theorem c9_missing_attachment_aborts (fs : FileSystem)
    (boundary sender subject body : String) (tos cc bcc atts : List String)
    (a : String) (ha : a ∈ atts) (hm : fs a = none) :
    encode_attachment_for_email fs a = .error (.ioError a) ∧
    ∃ e, build_msg_obj fs boundary sender subject body tos cc bcc atts = .error e := by
  refine ⟨encode_attachment_missing fs a hm, ?_⟩
  rcases encodeAttachments_error_of_missing fs atts a ha hm with ⟨e, he⟩
  refine ⟨e, ?_⟩
  simp only [build_msg_obj, assembleMessage, he]
  rfl

/-- Witness for C9: a single missing attachment `gone.png` on an empty
file system. -/
theorem c9_missing_attachment_aborts_witness :
    encode_attachment_for_email (fun _ => none) "gone.png" = .error (.ioError "gone.png") ∧
    ∃ e, build_msg_obj (fun _ => none) "B" "a@x.com" "S" "Hi" ["b@x.com"] [] []
      ["gone.png"] = .error e :=
  c9_missing_attachment_aborts (fun _ => none) "B" "a@x.com" "S" "Hi" ["b@x.com"] [] []
    ["gone.png"] "gone.png" (by simp) rfl

/-! ## Theorem about the sender (claim C7) -/

/-- Claim C7: when the underlying API send call raises an error, the
sender logs the failure with the underlying error attached and
re-raises the very same error value — one API call, no retry, no
substitution. -/
theorem c7_send_error_reraised {ε : Type} (e : ε) :
    (send_email (Except.error e)).outcome = Except.error e ∧
    (send_email (Except.error e)).apiCalls = 1 ∧
    (send_email (Except.error e)).log =
      [.info "Sending Email through Gmail",
       .exceptionEntry "Error: unable to send email through gmail" e] :=
  ⟨rfl, rfl, rfl⟩

end Gmail
